import Mathlib

/-!
Verification of `pennylane/templates/parameters.py`.

The module defines two functions, `parameters_cvqnnlayers` (a stack of
layers) and `parameters_cvqnnlayer` (a single layer), which optionally
reseed numpy's global random generator, compute
`n_if = n_modes*(n_modes-1)//2`, and then draw eleven parameter arrays in a
fixed order, returning them as a list.

The embedding models numpy's global `RandomState` abstractly: a state is an
entropy source together with a draw counter.  The entropy source assigns to
the i-th scalar draw its value: `g i` is the standard-normal value used when
the i-th draw is a normal draw (so `np.random.normal(loc, scale)` yields
`loc + scale * g i`), and `u i` is the unit-uniform value used when the i-th
draw is a unit-uniform draw.  `np.random.seed(s)` replaces the entropy
source by a seed-indexed one and resets the counter; this captures exactly
what the claims need: reseeding makes the sequence of draws a function of
the seed alone, and two runs that issue the same draw requests in the same
order from the same state receive the same values.

One point requires care: the source samples its uniform arrays with
`np.random.rnd(size=...)`.  `numpy.random` has NO attribute `rnd` in any
numpy release (the unit samplers are `random`, `random_sample`, `rand`,
`ranf`, `sample`), so this attribute access raises `AttributeError` at run
time, before the size argument is even looked at.  The embedding therefore
takes the semantics of `np.random.rnd` as a parameter `RndImpl`:
`RndImpl.missing` is the code as written (the lookup fails), and
`RndImpl.unitSampler` is the U(0,1) sampler that the surrounding arithmetic
(`...*interval + uniform_min`) and the module docstring expect the name to
denote.  Theorems instantiate whichever reading a claim is about.

Sizes passed to the samplers are integers; numpy rejects a negative
dimension with a `ValueError` (modelled as `negativeDimension`) and
otherwise draws `rows*cols` (resp. `n`) scalars in row-major order.
-/

namespace PennyLane

/-- Abstract entropy of numpy's global generator: `g i` is the
standard-normal value consumed if the i-th scalar draw is a normal draw,
`u i` the unit-uniform value consumed if it is a unit-uniform draw. -/
structure Entropy where
  g : ℕ → ℝ
  u : ℕ → ℝ

/-- State of numpy's global `RandomState`: its entropy source and the
number of scalar draws made so far. -/
structure RNGState where
  ent : Entropy
  pos : ℕ

/-- Run-time errors the numpy calls in this module can raise:
`attributeError` for the missing `numpy.random.rnd` attribute, and
`negativeDimension` for `ValueError: negative dimensions are not allowed`. -/
inductive NPError where
  | attributeError
  | negativeDimension
deriving DecidableEq

/-- Semantics given to the attribute access `np.random.rnd`: `missing` is
the code as written (`numpy.random` has no attribute `rnd`, so the access
raises `AttributeError`), `unitSampler` is the U(0,1) sampler the
surrounding arithmetic expects the name to denote. -/
inductive RndImpl where
  | missing
  | unitSampler
deriving DecidableEq

/-- A rank-1 or rank-2 numpy array of floats (floats modelled as reals). -/
inductive NPArray where
  | one : List ℝ → NPArray
  | two : List (List ℝ) → NPArray

/-- Rank (number of dimensions) of an array. -/
def NPArray.rank : NPArray → ℕ
  | .one _ => 1
  | .two _ => 2

/-- Leading dimension of an array. -/
def NPArray.leadingDim : NPArray → ℕ
  | .one xs => xs.length
  | .two xss => xss.length

/-- Trailing dimension of an array. -/
def NPArray.trailingDim : NPArray → ℕ
  | .one xs => xs.length
  | .two [] => 0
  | .two (row :: _) => row.length

/-- All entries of an array, in row-major order. -/
def NPArray.elems : NPArray → List ℝ
  | .one xs => xs
  | .two xss => xss.flatten

/-- Elementwise `x * c + d`: the embedding of the numpy broadcasting in
`np.random.rnd(size=...) * interval + uniform_min`. -/
def NPArray.affine (a : NPArray) (c d : ℝ) : NPArray :=
  match a with
  | .one xs => .one (xs.map fun x => x * c + d)
  | .two xss => .two (xss.map fun row => row.map fun x => x * c + d)

/-- Embedding of `np.random.seed(sd)`: `fam` is the generator's seeding
map (a parameter of the model); seeding installs the entropy source for
`sd` and resets the draw counter. -/
def np_seed (fam : ℤ → Entropy) (sd : ℤ) (_s : RNGState) : RNGState :=
  ⟨fam sd, 0⟩

/-- Embedding of the guard `if seed is not None: np.random.seed(seed)`. -/
def seedStep (fam : ℤ → Entropy) (seed : Option ℤ) (s : RNGState) : RNGState :=
  match seed with
  | some sd => np_seed fam sd s
  | none => s

/-- Embedding of `np.random.normal(loc=mean, scale=std, size=(n,))`. -/
def np_random_normal1 (mean std : ℝ) (n : ℤ) (s : RNGState) :
    Except NPError NPArray × RNGState :=
  if n < 0 then (.error .negativeDimension, s)
  else
    (.ok (.one ((List.range n.toNat).map fun i => mean + std * s.ent.g (s.pos + i))),
     ⟨s.ent, s.pos + n.toNat⟩)

/-- Embedding of `np.random.normal(loc=mean, scale=std, size=(l, n))`;
the `l*n` scalars are drawn in row-major order. -/
def np_random_normal2 (mean std : ℝ) (l n : ℤ) (s : RNGState) :
    Except NPError NPArray × RNGState :=
  if l < 0 ∨ n < 0 then (.error .negativeDimension, s)
  else
    (.ok (.two ((List.range l.toNat).map fun row =>
        (List.range n.toNat).map fun c => mean + std * s.ent.g (s.pos + (row * n.toNat + c)))),
     ⟨s.ent, s.pos + l.toNat * n.toNat⟩)

/-- Embedding of `np.random.rnd(size=(n,))` under a chosen semantics of
the attribute access. -/
def np_random_rnd1 (impl : RndImpl) (n : ℤ) (s : RNGState) :
    Except NPError NPArray × RNGState :=
  match impl with
  | .missing => (.error .attributeError, s)
  | .unitSampler =>
    if n < 0 then (.error .negativeDimension, s)
    else
      (.ok (.one ((List.range n.toNat).map fun i => s.ent.u (s.pos + i))),
       ⟨s.ent, s.pos + n.toNat⟩)

/-- Embedding of `np.random.rnd(size=(l, n))` under a chosen semantics of
the attribute access. -/
def np_random_rnd2 (impl : RndImpl) (l n : ℤ) (s : RNGState) :
    Except NPError NPArray × RNGState :=
  match impl with
  | .missing => (.error .attributeError, s)
  | .unitSampler =>
    if l < 0 ∨ n < 0 then (.error .negativeDimension, s)
    else
      (.ok (.two ((List.range l.toNat).map fun row =>
          (List.range n.toNat).map fun c => s.ent.u (s.pos + (row * n.toNat + c)))),
       ⟨s.ent, s.pos + l.toNat * n.toNat⟩)

/-- Sequencing of one fallible draw with the rest of the computation: a
Python exception aborts the call, leaving the generator state where the
failure happened. -/
def andThen (x : Except NPError NPArray × RNGState)
    (f : NPArray → RNGState → Except NPError (List NPArray) × RNGState) :
    Except NPError (List NPArray) × RNGState :=
  match x with
  | (.error e, s) => (.error e, s)
  | (.ok a, s) => f a s

/-- Embedding of `n_if = n_modes*(n_modes-1)//2` (Python floor division). -/
def n_if (n_modes : ℤ) : ℤ := Int.fdiv (n_modes * (n_modes - 1)) 2

/-- Embedding of `parameters_cvqnnlayer(n_modes, uniform_min, uniform_max,
mean, std, seed)` from the source, made explicit in the numpy generator
state `s0`, the generator's seeding map `fam`, and the semantics `impl` of
the `np.random.rnd` attribute access. -/
def parameters_cvqnnlayer (impl : RndImpl) (fam : ℤ → Entropy) (n_modes : ℤ)
    (uniform_min uniform_max mean std : ℝ) (seed : Option ℤ) (s0 : RNGState) :
    Except NPError (List NPArray) × RNGState :=
  let s := seedStep fam seed s0
  let nif := n_if n_modes
  let interval := uniform_max - uniform_min
  andThen (np_random_normal1 mean std nif s) fun theta_1 s =>
  andThen (np_random_normal1 mean std nif s) fun phi_1 s =>
  andThen (np_random_normal1 mean std n_modes s) fun varphi_1 s =>
  andThen (np_random_rnd1 impl n_modes s) fun r0 s =>
  let r := r0.affine interval uniform_min
  andThen (np_random_normal1 mean std n_modes s) fun phi_r s =>
  andThen (np_random_normal1 mean std nif s) fun theta_2 s =>
  andThen (np_random_normal1 mean std nif s) fun phi_2 s =>
  andThen (np_random_normal1 mean std n_modes s) fun varphi_2 s =>
  andThen (np_random_rnd1 impl n_modes s) fun a0 s =>
  let a := a0.affine interval uniform_min
  andThen (np_random_normal1 mean std n_modes s) fun phi_a s =>
  andThen (np_random_rnd1 impl n_modes s) fun k0 s =>
  let k := k0.affine interval uniform_min
  (.ok [theta_1, phi_1, varphi_1, r, phi_r, theta_2, phi_2, varphi_2, a, phi_a, k], s)

/-- Embedding of `parameters_cvqnnlayers(n_layers, n_modes, uniform_min,
uniform_max, mean, std, seed)` from the source (the stacked variant), made
explicit in the same extra parameters as `parameters_cvqnnlayer`. -/
def parameters_cvqnnlayers (impl : RndImpl) (fam : ℤ → Entropy) (n_layers n_modes : ℤ)
    (uniform_min uniform_max mean std : ℝ) (seed : Option ℤ) (s0 : RNGState) :
    Except NPError (List NPArray) × RNGState :=
  let s := seedStep fam seed s0
  let nif := n_if n_modes
  let interval := uniform_max - uniform_min
  andThen (np_random_normal2 mean std n_layers nif s) fun theta_1 s =>
  andThen (np_random_normal2 mean std n_layers nif s) fun phi_1 s =>
  andThen (np_random_normal2 mean std n_layers n_modes s) fun varphi_1 s =>
  andThen (np_random_rnd2 impl n_layers n_modes s) fun r0 s =>
  let r := r0.affine interval uniform_min
  andThen (np_random_normal2 mean std n_layers n_modes s) fun phi_r s =>
  andThen (np_random_normal2 mean std n_layers nif s) fun theta_2 s =>
  andThen (np_random_normal2 mean std n_layers nif s) fun phi_2 s =>
  andThen (np_random_normal2 mean std n_layers n_modes s) fun varphi_2 s =>
  andThen (np_random_rnd2 impl n_layers n_modes s) fun a0 s =>
  let a := a0.affine interval uniform_min
  andThen (np_random_normal2 mean std n_layers n_modes s) fun phi_a s =>
  andThen (np_random_rnd2 impl n_layers n_modes s) fun k0 s =>
  let k := k0.affine interval uniform_min
  (.ok [theta_1, phi_1, varphi_1, r, phi_r, theta_2, phi_2, varphi_2, a, phi_a, k], s)

/-- The arrays of a finished call; an aborted call yields no arrays. -/
def arraysOf (res : Except NPError (List NPArray) × RNGState) : List NPArray :=
  match res.1 with
  | .ok xs => xs
  | .error _ => []

/-- The array at role index `i` of an output list. -/
def role (rs : List NPArray) (i : ℕ) : NPArray := rs.getD i (.one [])

/-- All elements of a list of reals satisfy `p` (quantifier-free form). -/
def ListAll (p : ℝ → Prop) : List ℝ → Prop
  | [] => True
  | x :: xs => p x ∧ ListAll p xs

/-- A rank-1 array of shape `(D,)` regarded as a rank-2 array of shape
`(1, D)`; rank-2 arrays are left unchanged. -/
def wrapRow : NPArray → NPArray
  | .one xs => .two [xs]
  | .two xss => .two xss

/-- A concrete seeding map whose entropy sources are identically zero,
used to instantiate theorems at concrete inputs. -/
def famZero : ℤ → Entropy := fun _ => ⟨fun _ => 0, fun _ => 0⟩

/-- A concrete initial generator state. -/
def stZero : RNGState := ⟨⟨fun _ => 0, fun _ => 0⟩, 0⟩

/-- The scalars a rank-1 normal draw of length `n` at draw counter `off`
receives from the entropy source. -/
def normSeg (mean std : ℝ) (e : Entropy) (off n : ℕ) : List ℝ :=
  (List.range n).map fun i => mean + std * e.g (off + i)

/-- The scalars a rank-1 unit-uniform draw of length `n` at draw counter
`off` receives from the entropy source. -/
def unitSeg (e : Entropy) (off n : ℕ) : List ℝ :=
  (List.range n).map fun i => e.u (off + i)

/-- The rows a rank-2 normal draw of shape `(rows, cols)` at draw counter
`off` receives from the entropy source (row-major order). -/
def normSeg2 (mean std : ℝ) (e : Entropy) (off rows cols : ℕ) : List (List ℝ) :=
  (List.range rows).map fun row => (List.range cols).map fun c => mean + std * e.g (off + (row * cols + c))

/-- The rows a rank-2 unit-uniform draw of shape `(rows, cols)` at draw
counter `off` receives from the entropy source (row-major order). -/
def unitSeg2 (e : Entropy) (off rows cols : ℕ) : List (List ℝ) :=
  (List.range rows).map fun row => (List.range cols).map fun c => e.u (off + (row * cols + c))

/-- Reduction of a rank-1 normal draw with nonnegative size. -/
theorem np_random_normal1_ok (mean std : ℝ) {n : ℤ} (hn : 0 ≤ n) (s : RNGState) :
    np_random_normal1 mean std n s =
      (.ok (.one (normSeg mean std s.ent s.pos n.toNat)), ⟨s.ent, s.pos + n.toNat⟩) := by
  unfold np_random_normal1
  rw [if_neg (not_lt.mpr hn)]
  rfl

/-- Reduction of a rank-1 normal draw with negative size. -/
theorem np_random_normal1_neg (mean std : ℝ) {n : ℤ} (hn : n < 0) (s : RNGState) :
    np_random_normal1 mean std n s = (.error .negativeDimension, s) := by
  unfold np_random_normal1
  rw [if_pos hn]

/-- Reduction of a rank-2 normal draw with nonnegative sizes. -/
theorem np_random_normal2_ok (mean std : ℝ) {l n : ℤ} (hl : 0 ≤ l) (hn : 0 ≤ n)
    (s : RNGState) :
    np_random_normal2 mean std l n s =
      (.ok (.two (normSeg2 mean std s.ent s.pos l.toNat n.toNat)),
       ⟨s.ent, s.pos + l.toNat * n.toNat⟩) := by
  unfold np_random_normal2
  rw [if_neg (not_or.mpr ⟨not_lt.mpr hl, not_lt.mpr hn⟩)]
  rfl

/-- Reduction of a rank-2 normal draw with a negative row count. -/
theorem np_random_normal2_negl (mean std : ℝ) {l : ℤ} (hl : l < 0) (n : ℤ)
    (s : RNGState) :
    np_random_normal2 mean std l n s = (.error .negativeDimension, s) := by
  unfold np_random_normal2
  rw [if_pos (Or.inl hl)]

/-- Reduction of a rank-2 normal draw with a negative column count. -/
theorem np_random_normal2_negn (mean std : ℝ) (l : ℤ) {n : ℤ} (hn : n < 0)
    (s : RNGState) :
    np_random_normal2 mean std l n s = (.error .negativeDimension, s) := by
  unfold np_random_normal2
  rw [if_pos (Or.inr hn)]

/-- Reduction of the unit-sampler reading of `np.random.rnd` (rank 1). -/
theorem np_random_rnd1_unit_ok {n : ℤ} (hn : 0 ≤ n) (s : RNGState) :
    np_random_rnd1 .unitSampler n s =
      (.ok (.one (unitSeg s.ent s.pos n.toNat)), ⟨s.ent, s.pos + n.toNat⟩) := by
  unfold np_random_rnd1
  rw [if_neg (not_lt.mpr hn)]
  rfl

/-- Reduction of the unit-sampler reading of `np.random.rnd` (rank 2). -/
theorem np_random_rnd2_unit_ok {l n : ℤ} (hl : 0 ≤ l) (hn : 0 ≤ n) (s : RNGState) :
    np_random_rnd2 .unitSampler l n s =
      (.ok (.two (unitSeg2 s.ent s.pos l.toNat n.toNat)),
       ⟨s.ent, s.pos + l.toNat * n.toNat⟩) := by
  unfold np_random_rnd2
  rw [if_neg (not_or.mpr ⟨not_lt.mpr hl, not_lt.mpr hn⟩)]
  rfl

/-- As written, `np.random.rnd` raises `AttributeError` (rank-1 call site). -/
theorem np_random_rnd1_missing (n : ℤ) (s : RNGState) :
    np_random_rnd1 .missing n s = (.error .attributeError, s) := rfl

/-- As written, `np.random.rnd` raises `AttributeError` (rank-2 call site). -/
theorem np_random_rnd2_missing (l n : ℤ) (s : RNGState) :
    np_random_rnd2 .missing l n s = (.error .attributeError, s) := rfl

/-- The interaction-pair count is nonnegative for every integer mode count. -/
theorem n_if_nonneg (m : ℤ) : 0 ≤ n_if m := by
  have h : 0 ≤ m * (m - 1) := by
    rcases le_or_lt m 0 with h | h
    · have h2 : (-m) * (-(m - 1)) = m * (m - 1) := by ring
      have h3 : 0 ≤ (-m) * (-(m - 1)) := mul_nonneg (by omega) (by omega)
      exact h2 ▸ h3
    · exact mul_nonneg (by omega) (by omega)
  exact Int.fdiv_nonneg h (by norm_num)

/-- The product `m * (m - 1)` is even, so the floor division by 2 in
`n_if` is exact. -/
theorem two_mul_n_if (m : ℤ) : 2 * n_if m = m * (m - 1) := by
  obtain ⟨k, hk⟩ : Even (m * (m - 1)) := by
    have h := Int.even_mul_succ_self (m - 1)
    have h2 : (m - 1) * (m - 1 + 1) = m * (m - 1) := by ring
    exact h2 ▸ h
  have hk2 : m * (m - 1) = 2 * k := by omega
  rw [n_if, hk2, Int.mul_fdiv_cancel_left k (by norm_num)]

/-- Full evaluation of the single-layer operation with the unit-sampler
reading of `np.random.rnd`, for a nonnegative mode count: the eleven
arrays in role order, each consuming its scalars from the entropy source
at consecutive draw counters. -/
theorem parameters_cvqnnlayer_unit_eq (fam : ℤ → Entropy) (m : ℤ) (hm : 0 ≤ m)
    (umin umax mean std : ℝ) (seed : Option ℤ) (s0 s1 : RNGState)
    (hs : seedStep fam seed s0 = s1) :
    parameters_cvqnnlayer .unitSampler fam m umin umax mean std seed s0 =
      (.ok [ .one (normSeg mean std s1.ent s1.pos (n_if m).toNat),
             .one (normSeg mean std s1.ent (s1.pos + (n_if m).toNat) (n_if m).toNat),
             .one (normSeg mean std s1.ent (s1.pos + (n_if m).toNat + (n_if m).toNat) m.toNat),
             .one ((unitSeg s1.ent (s1.pos + (n_if m).toNat + (n_if m).toNat + m.toNat) m.toNat).map
               fun x => x * (umax - umin) + umin),
             .one (normSeg mean std s1.ent (s1.pos + (n_if m).toNat + (n_if m).toNat + m.toNat + m.toNat) m.toNat),
             .one (normSeg mean std s1.ent (s1.pos + (n_if m).toNat + (n_if m).toNat + m.toNat + m.toNat + m.toNat) (n_if m).toNat),
             .one (normSeg mean std s1.ent (s1.pos + (n_if m).toNat + (n_if m).toNat + m.toNat + m.toNat + m.toNat + (n_if m).toNat) (n_if m).toNat),
             .one (normSeg mean std s1.ent (s1.pos + (n_if m).toNat + (n_if m).toNat + m.toNat + m.toNat + m.toNat + (n_if m).toNat + (n_if m).toNat) m.toNat),
             .one ((unitSeg s1.ent (s1.pos + (n_if m).toNat + (n_if m).toNat + m.toNat + m.toNat + m.toNat + (n_if m).toNat + (n_if m).toNat + m.toNat) m.toNat).map
               fun x => x * (umax - umin) + umin),
             .one (normSeg mean std s1.ent (s1.pos + (n_if m).toNat + (n_if m).toNat + m.toNat + m.toNat + m.toNat + (n_if m).toNat + (n_if m).toNat + m.toNat + m.toNat) m.toNat),
             .one ((unitSeg s1.ent (s1.pos + (n_if m).toNat + (n_if m).toNat + m.toNat + m.toNat + m.toNat + (n_if m).toNat + (n_if m).toNat + m.toNat + m.toNat + m.toNat) m.toNat).map
               fun x => x * (umax - umin) + umin) ],
       ⟨s1.ent, s1.pos + (n_if m).toNat + (n_if m).toNat + m.toNat + m.toNat + m.toNat + (n_if m).toNat + (n_if m).toNat + m.toNat + m.toNat + m.toNat + m.toNat⟩) := by
  subst hs
  simp only [parameters_cvqnnlayer, andThen,
    np_random_normal1_ok mean std (n_if_nonneg m),
    np_random_normal1_ok mean std hm,
    np_random_rnd1_unit_ok hm, NPArray.affine]

/-- Evaluation of the single-layer operation as written
(`np.random.rnd` missing): for a nonnegative mode count the call draws
`theta_1`, `phi_1` and `varphi_1` and then aborts with `AttributeError`
at the `r` line, leaving the draw counter advanced by those draws. -/
theorem parameters_cvqnnlayer_missing_eq (fam : ℤ → Entropy) (m : ℤ) (hm : 0 ≤ m)
    (umin umax mean std : ℝ) (seed : Option ℤ) (s0 s1 : RNGState)
    (hs : seedStep fam seed s0 = s1) :
    parameters_cvqnnlayer .missing fam m umin umax mean std seed s0 =
      (.error .attributeError,
       ⟨s1.ent, s1.pos + (n_if m).toNat + (n_if m).toNat + m.toNat⟩) := by
  subst hs
  simp only [parameters_cvqnnlayer, andThen,
    np_random_normal1_ok mean std (n_if_nonneg m),
    np_random_normal1_ok mean std hm,
    np_random_rnd1_missing]

/-- Evaluation of the single-layer operation with a negative mode count,
for either reading of `np.random.rnd` (the broken line is never reached):
the two interaction-pair draws succeed and the call then aborts inside
the sampler at `varphi_1` with the negative-dimension error. -/
theorem parameters_cvqnnlayer_negm_eq (impl : RndImpl) (fam : ℤ → Entropy)
    (m : ℤ) (hm : m < 0)
    (umin umax mean std : ℝ) (seed : Option ℤ) (s0 s1 : RNGState)
    (hs : seedStep fam seed s0 = s1) :
    parameters_cvqnnlayer impl fam m umin umax mean std seed s0 =
      (.error .negativeDimension,
       ⟨s1.ent, s1.pos + (n_if m).toNat + (n_if m).toNat⟩) := by
  subst hs
  simp only [parameters_cvqnnlayer, andThen,
    np_random_normal1_ok mean std (n_if_nonneg m),
    np_random_normal1_neg mean std hm]

/-- Evaluation of the stacked operation with a negative layer count, for
either reading of `np.random.rnd`: the very first sampler call rejects
the shape with the negative-dimension error, before any draw. -/
theorem parameters_cvqnnlayers_negl_eq (impl : RndImpl) (fam : ℤ → Entropy)
    (l m : ℤ) (hl : l < 0)
    (umin umax mean std : ℝ) (seed : Option ℤ) (s0 s1 : RNGState)
    (hs : seedStep fam seed s0 = s1) :
    parameters_cvqnnlayers impl fam l m umin umax mean std seed s0 =
      (.error .negativeDimension, s1) := by
  subst hs
  simp only [parameters_cvqnnlayers, andThen,
    np_random_normal2_negl mean std hl]

/-- Evaluation of the stacked operation with a nonnegative layer count
and a negative mode count, for either reading of `np.random.rnd`: the two
interaction-pair draws succeed and the call then aborts inside the
sampler at `varphi_1` with the negative-dimension error. -/
theorem parameters_cvqnnlayers_negm_eq (impl : RndImpl) (fam : ℤ → Entropy)
    (l m : ℤ) (hl : 0 ≤ l) (hm : m < 0)
    (umin umax mean std : ℝ) (seed : Option ℤ) (s0 s1 : RNGState)
    (hs : seedStep fam seed s0 = s1) :
    parameters_cvqnnlayers impl fam l m umin umax mean std seed s0 =
      (.error .negativeDimension,
       ⟨s1.ent, s1.pos + l.toNat * (n_if m).toNat + l.toNat * (n_if m).toNat⟩) := by
  subst hs
  simp only [parameters_cvqnnlayers, andThen,
    np_random_normal2_ok mean std hl (n_if_nonneg m),
    np_random_normal2_negn mean std l hm]

/-- Full evaluation of the stacked operation with the unit-sampler reading
of `np.random.rnd`, for nonnegative layer and mode counts. -/
theorem parameters_cvqnnlayers_unit_eq (fam : ℤ → Entropy) (l m : ℤ)
    (hl : 0 ≤ l) (hm : 0 ≤ m)
    (umin umax mean std : ℝ) (seed : Option ℤ) (s0 s1 : RNGState)
    (hs : seedStep fam seed s0 = s1) :
    parameters_cvqnnlayers .unitSampler fam l m umin umax mean std seed s0 =
      (.ok [ .two (normSeg2 mean std s1.ent s1.pos l.toNat (n_if m).toNat),
             .two (normSeg2 mean std s1.ent (s1.pos + l.toNat * (n_if m).toNat) l.toNat (n_if m).toNat),
             .two (normSeg2 mean std s1.ent (s1.pos + l.toNat * (n_if m).toNat + l.toNat * (n_if m).toNat) l.toNat m.toNat),
             .two ((unitSeg2 s1.ent (s1.pos + l.toNat * (n_if m).toNat + l.toNat * (n_if m).toNat + l.toNat * m.toNat) l.toNat m.toNat).map
               fun row => row.map fun x => x * (umax - umin) + umin),
             .two (normSeg2 mean std s1.ent (s1.pos + l.toNat * (n_if m).toNat + l.toNat * (n_if m).toNat + l.toNat * m.toNat + l.toNat * m.toNat) l.toNat m.toNat),
             .two (normSeg2 mean std s1.ent (s1.pos + l.toNat * (n_if m).toNat + l.toNat * (n_if m).toNat + l.toNat * m.toNat + l.toNat * m.toNat + l.toNat * m.toNat) l.toNat (n_if m).toNat),
             .two (normSeg2 mean std s1.ent (s1.pos + l.toNat * (n_if m).toNat + l.toNat * (n_if m).toNat + l.toNat * m.toNat + l.toNat * m.toNat + l.toNat * m.toNat + l.toNat * (n_if m).toNat) l.toNat (n_if m).toNat),
             .two (normSeg2 mean std s1.ent (s1.pos + l.toNat * (n_if m).toNat + l.toNat * (n_if m).toNat + l.toNat * m.toNat + l.toNat * m.toNat + l.toNat * m.toNat + l.toNat * (n_if m).toNat + l.toNat * (n_if m).toNat) l.toNat m.toNat),
             .two ((unitSeg2 s1.ent (s1.pos + l.toNat * (n_if m).toNat + l.toNat * (n_if m).toNat + l.toNat * m.toNat + l.toNat * m.toNat + l.toNat * m.toNat + l.toNat * (n_if m).toNat + l.toNat * (n_if m).toNat + l.toNat * m.toNat) l.toNat m.toNat).map
               fun row => row.map fun x => x * (umax - umin) + umin),
             .two (normSeg2 mean std s1.ent (s1.pos + l.toNat * (n_if m).toNat + l.toNat * (n_if m).toNat + l.toNat * m.toNat + l.toNat * m.toNat + l.toNat * m.toNat + l.toNat * (n_if m).toNat + l.toNat * (n_if m).toNat + l.toNat * m.toNat + l.toNat * m.toNat) l.toNat m.toNat),
             .two ((unitSeg2 s1.ent (s1.pos + l.toNat * (n_if m).toNat + l.toNat * (n_if m).toNat + l.toNat * m.toNat + l.toNat * m.toNat + l.toNat * m.toNat + l.toNat * (n_if m).toNat + l.toNat * (n_if m).toNat + l.toNat * m.toNat + l.toNat * m.toNat + l.toNat * m.toNat) l.toNat m.toNat).map
               fun row => row.map fun x => x * (umax - umin) + umin) ],
       ⟨s1.ent, s1.pos + l.toNat * (n_if m).toNat + l.toNat * (n_if m).toNat + l.toNat * m.toNat + l.toNat * m.toNat + l.toNat * m.toNat + l.toNat * (n_if m).toNat + l.toNat * (n_if m).toNat + l.toNat * m.toNat + l.toNat * m.toNat + l.toNat * m.toNat + l.toNat * m.toNat⟩) := by
  subst hs
  simp only [parameters_cvqnnlayers, andThen,
    np_random_normal2_ok mean std hl (n_if_nonneg m),
    np_random_normal2_ok mean std hl hm,
    np_random_rnd2_unit_ok hl hm, NPArray.affine]

/-- Evaluation of the stacked operation as written (`np.random.rnd`
missing): for nonnegative layer and mode counts the call draws `theta_1`,
`phi_1` and `varphi_1` and then aborts with `AttributeError` at the `r`
line, leaving the draw counter advanced by those draws. -/
theorem parameters_cvqnnlayers_missing_eq (fam : ℤ → Entropy) (l m : ℤ)
    (hl : 0 ≤ l) (hm : 0 ≤ m)
    (umin umax mean std : ℝ) (seed : Option ℤ) (s0 s1 : RNGState)
    (hs : seedStep fam seed s0 = s1) :
    parameters_cvqnnlayers .missing fam l m umin umax mean std seed s0 =
      (.error .attributeError,
       ⟨s1.ent, s1.pos + l.toNat * (n_if m).toNat + l.toNat * (n_if m).toNat + l.toNat * m.toNat⟩) := by
  subst hs
  simp only [parameters_cvqnnlayers, andThen,
    np_random_normal2_ok mean std hl (n_if_nonneg m),
    np_random_normal2_ok mean std hl hm,
    np_random_rnd2_missing]

/-- The range of length one. -/
theorem range_one : List.range 1 = [0] := by decide

/-- A negative mode count still yields a positive interaction-pair count
(`(-1)*(-2)//2 = 1` and so on), so the first two draws are nonempty. -/
theorem n_if_pos_of_neg (m : ℤ) (hm : m < 0) : 1 ≤ n_if m := by
  have h2 : 2 ≤ m * (m - 1) := by nlinarith
  have h3 := two_mul_n_if m
  omega

/-- Trailing dimension of a rank-2 array whose rows are generated by
mapping over a nonempty range. -/
theorem trailingDim_two_map {n : ℕ} (hn : n ≠ 0) (f : ℕ → List ℝ) :
    NPArray.trailingDim (.two ((List.range n).map f)) = (f 0).length := by
  obtain ⟨k, rfl⟩ := Nat.exists_eq_succ_of_ne_zero hn
  rw [List.range_succ_eq_map k]
  rfl

/-- Trailing dimension of a rank-2 array all of whose rows are empty. -/
theorem trailingDim_two_replicate_nil (n : ℕ) :
    NPArray.trailingDim (.two (List.replicate n ([] : List ℝ))) = 0 := by
  cases n <;> rfl

/-- Mapping a function over a list preserves a pointwise property. -/
theorem ListAll_map (p : ℝ → Prop) (f : ℝ → ℝ) :
    ∀ xs : List ℝ, (∀ x ∈ xs, p (f x)) → ListAll p (xs.map f)
  | [], _ => trivial
  | x :: xs, h =>
    ⟨h x (by simp), ListAll_map p f xs fun y hy => h y (by simp [hy])⟩

/-- A pointwise property over a concatenation of two lists. -/
theorem ListAll_append (p : ℝ → Prop) :
    ∀ xs ys : List ℝ, ListAll p xs → ListAll p ys → ListAll p (xs ++ ys)
  | [], _, _, hys => hys
  | _ :: xs, ys, hxs, hys => ⟨hxs.1, ListAll_append p xs ys hxs.2 hys⟩

/-- A pointwise property over a flattened list of rows. -/
theorem ListAll_flatten (p : ℝ → Prop) :
    ∀ xss : List (List ℝ), (∀ row ∈ xss, ListAll p row) → ListAll p xss.flatten
  | [], _ => trivial
  | row :: rest, h => by
    rw [List.flatten_cons]
    exact ListAll_append p _ _ (h row (by simp))
      (ListAll_flatten p rest fun r hr => h r (by simp [hr]))

/-- The affine synthesis of a uniform sample from a unit sample lands in
the half-open target interval when the interval is nondegenerate. -/
theorem unit_affine_mem (umin umax : ℝ) (hlt : umin < umax) (x : ℝ)
    (hx0 : 0 ≤ x) (hx1 : x < 1) :
    umin ≤ x * (umax - umin) + umin ∧ x * (umax - umin) + umin < umax := by
  constructor <;> nlinarith

/-- Every element of a rank-1 uniform-role segment lies in the target
half-open interval when the interval is nondegenerate and the unit draws
lie in `[0, 1)`. -/
theorem ListAll_unitSeg_affine (e : Entropy) (off n : ℕ) (umin umax : ℝ)
    (hlt : umin < umax) (hu : ∀ i, 0 ≤ e.u i ∧ e.u i < 1) :
    ListAll (fun x => umin ≤ x ∧ x < umax)
      ((unitSeg e off n).map fun x => x * (umax - umin) + umin) := by
  refine ListAll_map _ _ _ fun x hx => ?_
  simp only [unitSeg, List.mem_map, List.mem_range] at hx
  obtain ⟨i, hi, rfl⟩ := hx
  exact unit_affine_mem umin umax hlt _ (hu _).1 (hu _).2

/-- Every element of a rank-2 uniform-role segment lies in the target
half-open interval when the interval is nondegenerate and the unit draws
lie in `[0, 1)`. -/
theorem ListAll_unitSeg2_affine (e : Entropy) (off rows cols : ℕ) (umin umax : ℝ)
    (hlt : umin < umax) (hu : ∀ i, 0 ≤ e.u i ∧ e.u i < 1) :
    ListAll (fun x => umin ≤ x ∧ x < umax)
      (((unitSeg2 e off rows cols).map fun row =>
        row.map fun x => x * (umax - umin) + umin).flatten) := by
  refine ListAll_flatten _ _ fun row hrow => ?_
  simp only [List.mem_map] at hrow
  obtain ⟨row0, h0, rfl⟩ := hrow
  refine ListAll_map _ _ _ fun x hx => ?_
  simp only [unitSeg2, List.mem_map, List.mem_range] at h0
  obtain ⟨r, hr, rfl⟩ := h0
  simp only [List.mem_map, List.mem_range] at hx
  obtain ⟨c, hc, rfl⟩ := hx
  exact unit_affine_mem umin umax hlt _ (hu _).1 (hu _).2

/-- C9: for every integer mode count (including zero and negative values),
`mode_count * (mode_count - 1)` is even, so the interaction count computed
by floor division by 2 is exact: `2 * n_if m = m * (m - 1)`; the floor
never discards a remainder. -/
theorem C9_interaction_count_exact (m : ℤ) : 2 * n_if m = m * (m - 1) :=
  two_mul_n_if m

/-- C3: for every seed and identical other arguments, the result of either
operation is independent of the incoming generator state (the generator is
reseeded with exactly the given seed before any sampling), so two calls
with identical arguments produce identical outputs — in particular,
whenever arrays are produced they are element-wise identical.  This holds
for every semantics of the `np.random.rnd` attribute access. -/
theorem C3_seed_determinism (impl : RndImpl) (fam : ℤ → Entropy) (l m : ℤ)
    (umin umax mean std : ℝ) (sd : ℤ) (s1 s2 : RNGState) :
    parameters_cvqnnlayers impl fam l m umin umax mean std (some sd) s1 =
      parameters_cvqnnlayers impl fam l m umin umax mean std (some sd) s2 ∧
    parameters_cvqnnlayer impl fam m umin umax mean std (some sd) s1 =
      parameters_cvqnnlayer impl fam m umin umax mean std (some sd) s2 :=
  ⟨rfl, rfl⟩

/-- C1: for positive mode and layer counts the claim promises eleven
arrays with trailing dimension `n_if` at roles 0, 1, 5, 6 and `n_modes`
elsewhere.  As written both operations instead abort with the
`AttributeError` of the missing `np.random.rnd` attribute; with the
unit-sampler reading of that name, the eleven arrays do come back with
exactly the claimed trailing dimensions. -/
theorem C1_shapes_and_crash (fam : ℤ → Entropy) (l m : ℤ) (hl : 0 < l) (hm : 0 < m)
    (umin umax mean std : ℝ) (sd : ℤ) (s0 : RNGState) :
    (parameters_cvqnnlayers .missing fam l m umin umax mean std (some sd) s0).1 =
      .error .attributeError ∧
    (parameters_cvqnnlayer .missing fam m umin umax mean std (some sd) s0).1 =
      .error .attributeError ∧
    (arraysOf (parameters_cvqnnlayers .unitSampler fam l m umin umax mean std (some sd) s0)).map
        NPArray.trailingDim =
      [(n_if m).toNat, (n_if m).toNat, m.toNat, m.toNat, m.toNat,
       (n_if m).toNat, (n_if m).toNat, m.toNat, m.toNat, m.toNat, m.toNat] ∧
    (arraysOf (parameters_cvqnnlayer .unitSampler fam m umin umax mean std (some sd) s0)).map
        NPArray.trailingDim =
      [(n_if m).toNat, (n_if m).toNat, m.toNat, m.toNat, m.toNat,
       (n_if m).toNat, (n_if m).toNat, m.toNat, m.toNat, m.toNat, m.toNat] := by
  have hL : l.toNat ≠ 0 := by omega
  refine ⟨?_, ?_, ?_, ?_⟩
  · rw [parameters_cvqnnlayers_missing_eq fam l m (le_of_lt hl) (le_of_lt hm)
      umin umax mean std (some sd) s0 _ rfl]
  · rw [parameters_cvqnnlayer_missing_eq fam m (le_of_lt hm)
      umin umax mean std (some sd) s0 _ rfl]
  · rw [parameters_cvqnnlayers_unit_eq fam l m (le_of_lt hl) (le_of_lt hm)
      umin umax mean std (some sd) s0 _ rfl]
    simp [arraysOf, normSeg2, unitSeg2, List.map_map, trailingDim_two_map hL,
      Function.comp]
  · rw [parameters_cvqnnlayer_unit_eq fam m (le_of_lt hm)
      umin umax mean std (some sd) s0 _ rfl]
    simp [arraysOf, normSeg, unitSeg, NPArray.trailingDim]

/-- Witness for C1 at mode count 2 and layer count 1. -/
theorem C1_shapes_and_crash_witness :
    (parameters_cvqnnlayers .missing famZero 1 2 0 1 0 1 (some 0) stZero).1 =
      .error .attributeError ∧
    (parameters_cvqnnlayer .missing famZero 2 0 1 0 1 (some 0) stZero).1 =
      .error .attributeError ∧
    (arraysOf (parameters_cvqnnlayers .unitSampler famZero 1 2 0 1 0 1 (some 0) stZero)).map
        NPArray.trailingDim =
      [(n_if 2).toNat, (n_if 2).toNat, (2 : ℤ).toNat, (2 : ℤ).toNat, (2 : ℤ).toNat,
       (n_if 2).toNat, (n_if 2).toNat, (2 : ℤ).toNat, (2 : ℤ).toNat, (2 : ℤ).toNat, (2 : ℤ).toNat] ∧
    (arraysOf (parameters_cvqnnlayer .unitSampler famZero 2 0 1 0 1 (some 0) stZero)).map
        NPArray.trailingDim =
      [(n_if 2).toNat, (n_if 2).toNat, (2 : ℤ).toNat, (2 : ℤ).toNat, (2 : ℤ).toNat,
       (n_if 2).toNat, (n_if 2).toNat, (2 : ℤ).toNat, (2 : ℤ).toNat, (2 : ℤ).toNat, (2 : ℤ).toNat] :=
  C1_shapes_and_crash famZero 1 2 (by norm_num) (by norm_num) 0 1 0 1 0 stZero

/-- C7: with the unit-sampler reading of `np.random.rnd`, every array of
the stacked variant has rank 2 with leading dimension `n_layers`, and
every array of the single-layer variant has rank 1.  (As written neither
operation returns arrays at all — see C1.) -/
theorem C7_ranks (fam : ℤ → Entropy) (l m : ℤ) (hl : 0 ≤ l) (hm : 0 ≤ m)
    (umin umax mean std : ℝ) (sd : ℤ) (s0 : RNGState) :
    (arraysOf (parameters_cvqnnlayers .unitSampler fam l m umin umax mean std (some sd) s0)).map
        NPArray.rank = List.replicate 11 2 ∧
    (arraysOf (parameters_cvqnnlayers .unitSampler fam l m umin umax mean std (some sd) s0)).map
        NPArray.leadingDim = List.replicate 11 l.toNat ∧
    (arraysOf (parameters_cvqnnlayer .unitSampler fam m umin umax mean std (some sd) s0)).map
        NPArray.rank = List.replicate 11 1 := by
  refine ⟨?_, ?_, ?_⟩
  · rw [parameters_cvqnnlayers_unit_eq fam l m hl hm umin umax mean std (some sd) s0 _ rfl]
    simp [arraysOf, NPArray.rank, List.replicate]
  · rw [parameters_cvqnnlayers_unit_eq fam l m hl hm umin umax mean std (some sd) s0 _ rfl]
    simp [arraysOf, NPArray.leadingDim, normSeg2, unitSeg2, List.replicate]
  · rw [parameters_cvqnnlayer_unit_eq fam m hm umin umax mean std (some sd) s0 _ rfl]
    simp [arraysOf, NPArray.rank, List.replicate]

/-- Witness for C7 at mode count 2 and layer count 3. -/
theorem C7_ranks_witness :
    (arraysOf (parameters_cvqnnlayers .unitSampler famZero 3 2 0 1 0 1 (some 0) stZero)).map
        NPArray.rank = List.replicate 11 2 ∧
    (arraysOf (parameters_cvqnnlayers .unitSampler famZero 3 2 0 1 0 1 (some 0) stZero)).map
        NPArray.leadingDim = List.replicate 11 (3 : ℤ).toNat ∧
    (arraysOf (parameters_cvqnnlayer .unitSampler famZero 2 0 1 0 1 (some 0) stZero)).map
        NPArray.rank = List.replicate 11 1 :=
  C7_ranks famZero 3 2 (by norm_num) (by norm_num) 0 1 0 1 0 stZero

/-- C10: for mode count 0 no validation error is raised: the interaction
count evaluates to 0 and execution proceeds directly into sampling — as
written, the call runs through the three (empty) normal draws and aborts
only at the unrelated missing-attribute lookup, and with the unit-sampler
reading it returns all eleven arrays with every trailing dimension 0 (in
particular the interaction-pair roles 0, 1, 5 and 6 are empty): the
zero-mode policy is degenerate-empty acceptance, not rejection. -/
theorem C10_zero_modes_accepted (fam : ℤ → Entropy) (l : ℤ) (hl : 0 < l)
    (umin umax mean std : ℝ) (sd : ℤ) (s0 : RNGState) :
    n_if 0 = 0 ∧
    (parameters_cvqnnlayer .missing fam 0 umin umax mean std (some sd) s0).1 =
      .error .attributeError ∧
    (arraysOf (parameters_cvqnnlayer .unitSampler fam 0 umin umax mean std (some sd) s0)).map
      NPArray.trailingDim = List.replicate 11 0 ∧
    (parameters_cvqnnlayers .missing fam l 0 umin umax mean std (some sd) s0).1 =
      .error .attributeError ∧
    (arraysOf (parameters_cvqnnlayers .unitSampler fam l 0 umin umax mean std (some sd) s0)).map
      NPArray.trailingDim = List.replicate 11 0 := by
  have hL : l.toNat ≠ 0 := by omega
  refine ⟨by decide, ?_, ?_, ?_, ?_⟩
  · rw [parameters_cvqnnlayer_missing_eq fam 0 (by norm_num)
      umin umax mean std (some sd) s0 _ rfl]
  · rw [parameters_cvqnnlayer_unit_eq fam 0 (by norm_num)
      umin umax mean std (some sd) s0 _ rfl]
    simp [arraysOf, normSeg, unitSeg, NPArray.trailingDim, List.replicate, n_if]
  · rw [parameters_cvqnnlayers_missing_eq fam l 0 (le_of_lt hl) (by norm_num)
      umin umax mean std (some sd) s0 _ rfl]
  · rw [parameters_cvqnnlayers_unit_eq fam l 0 (le_of_lt hl) (by norm_num)
      umin umax mean std (some sd) s0 _ rfl]
    simp [arraysOf, normSeg2, unitSeg2, List.map_map, trailingDim_two_map hL,
      Function.comp, List.replicate, n_if, trailingDim_two_replicate_nil]

/-- Witness for C10 at layer count 1. -/
theorem C10_zero_modes_accepted_witness :
    n_if 0 = 0 ∧
    (parameters_cvqnnlayer .missing famZero 0 0 1 0 1 (some 0) stZero).1 =
      .error .attributeError ∧
    (arraysOf (parameters_cvqnnlayer .unitSampler famZero 0 0 1 0 1 (some 0) stZero)).map
      NPArray.trailingDim = List.replicate 11 0 ∧
    (parameters_cvqnnlayers .missing famZero 1 0 0 1 0 1 (some 0) stZero).1 =
      .error .attributeError ∧
    (arraysOf (parameters_cvqnnlayers .unitSampler famZero 1 0 0 1 0 1 (some 0) stZero)).map
      NPArray.trailingDim = List.replicate 11 0 :=
  C10_zero_modes_accepted famZero 1 (by norm_num) 0 1 0 1 0 stZero

/-- C2 counterexample: the claim says each operation fails with an
InvalidArgument-kind error whenever `mode_count` (and, for the stack
variant, `layer_count`) is not a positive integer; but at mode count 0
the single-layer operation raises no validation error at all, and at
layer count 0 neither does the stack operation — with the unit-sampler
reading of the one broken attribute, both calls return eleven (empty)
arrays. -/
theorem C2_cex :
    (parameters_cvqnnlayer .unitSampler famZero 0 0 1 0 1 (some 0) stZero).1 =
      .ok [.one [], .one [], .one [], .one [], .one [], .one [],
           .one [], .one [], .one [], .one [], .one []] ∧
    (parameters_cvqnnlayers .unitSampler famZero 0 2 0 1 0 1 (some 0) stZero).1 =
      .ok [.two [], .two [], .two [], .two [], .two [], .two [],
           .two [], .two [], .two [], .two [], .two []] :=
  ⟨rfl, rfl⟩

/-- C2 amended: neither operation validates `mode_count` or
`layer_count`, and no InvalidArgument-kind check exists.  Mode count 0
and layer count 0 pass straight through the sampling logic (eleven empty
arrays under the unit-sampler reading); a negative mode count fails, for
either reading, only inside the sampler with the negative-dimension
error after the two interaction-pair draws (the failing `varphi_1` draw
precedes the broken `rnd` line); a negative layer count fails, for
either reading, at the first sampler call with the same sampler error;
and, as written, every call with nonnegative counts aborts with the
argument-independent `AttributeError` of the missing `np.random.rnd`. -/
theorem C2_no_validation (fam : ℤ → Entropy) (l m : ℤ) (umin umax mean std : ℝ)
    (sd : ℤ) (s0 : RNGState) :
    (m = 0 → (parameters_cvqnnlayer .unitSampler fam m umin umax mean std (some sd) s0).1 =
      .ok [.one [], .one [], .one [], .one [], .one [], .one [],
           .one [], .one [], .one [], .one [], .one []]) ∧
    (m < 0 → ∀ impl : RndImpl,
      (parameters_cvqnnlayer impl fam m umin umax mean std (some sd) s0).1 =
        .error .negativeDimension ∧
      0 < (parameters_cvqnnlayer impl fam m umin umax mean std (some sd) s0).2.pos) ∧
    (0 ≤ m → (parameters_cvqnnlayer .missing fam m umin umax mean std (some sd) s0).1 =
      .error .attributeError) ∧
    (l = 0 → 0 ≤ m →
      (parameters_cvqnnlayers .unitSampler fam l m umin umax mean std (some sd) s0).1 =
      .ok [.two [], .two [], .two [], .two [], .two [], .two [],
           .two [], .two [], .two [], .two [], .two []]) ∧
    (l < 0 → ∀ impl : RndImpl,
      (parameters_cvqnnlayers impl fam l m umin umax mean std (some sd) s0).1 =
        .error .negativeDimension) ∧
    (0 ≤ l → m < 0 → ∀ impl : RndImpl,
      (parameters_cvqnnlayers impl fam l m umin umax mean std (some sd) s0).1 =
        .error .negativeDimension) ∧
    (0 ≤ l → 0 ≤ m →
      (parameters_cvqnnlayers .missing fam l m umin umax mean std (some sd) s0).1 =
      .error .attributeError) := by
  refine ⟨?_, ?_, ?_, ?_, ?_, ?_, ?_⟩
  · rintro rfl
    rw [parameters_cvqnnlayer_unit_eq fam 0 (by norm_num)
      umin umax mean std (some sd) s0 _ rfl]
    simp [normSeg, unitSeg, n_if]
  · intro hm impl
    have h1 := n_if_pos_of_neg m hm
    rw [parameters_cvqnnlayer_negm_eq impl fam m hm umin umax mean std (some sd) s0 _ rfl]
    refine ⟨rfl, ?_⟩
    simp only []
    omega
  · intro hm
    rw [parameters_cvqnnlayer_missing_eq fam m hm umin umax mean std (some sd) s0 _ rfl]
  · rintro rfl hm
    rw [parameters_cvqnnlayers_unit_eq fam 0 m (by norm_num) hm
      umin umax mean std (some sd) s0 _ rfl]
    simp [normSeg2, unitSeg2]
  · intro hl impl
    rw [parameters_cvqnnlayers_negl_eq impl fam l m hl umin umax mean std (some sd) s0 _ rfl]
  · intro hl hm impl
    rw [parameters_cvqnnlayers_negm_eq impl fam l m hl hm umin umax mean std (some sd) s0 _ rfl]
  · intro hl hm
    rw [parameters_cvqnnlayers_missing_eq fam l m hl hm umin umax mean std (some sd) s0 _ rfl]

/-- Witness for C2 amended: zero counts pass through without error,
negative counts fail in the sampler (for the code as written, too), and
nonnegative counts reach the missing-attribute abort, in both
operations. -/
theorem C2_no_validation_witness :
    (parameters_cvqnnlayer .unitSampler famZero 0 0 1 0 1 (some 0) stZero).1 =
      .ok [.one [], .one [], .one [], .one [], .one [], .one [],
           .one [], .one [], .one [], .one [], .one []] ∧
    ((parameters_cvqnnlayer .missing famZero (-1) 0 1 0 1 (some 0) stZero).1 =
        .error .negativeDimension ∧
      0 < (parameters_cvqnnlayer .missing famZero (-1) 0 1 0 1 (some 0) stZero).2.pos) ∧
    (parameters_cvqnnlayer .missing famZero 2 0 1 0 1 (some 0) stZero).1 =
      .error .attributeError ∧
    (parameters_cvqnnlayers .unitSampler famZero 0 2 0 1 0 1 (some 0) stZero).1 =
      .ok [.two [], .two [], .two [], .two [], .two [], .two [],
           .two [], .two [], .two [], .two [], .two []] ∧
    (parameters_cvqnnlayers .missing famZero (-1) 2 0 1 0 1 (some 0) stZero).1 =
      .error .negativeDimension ∧
    (parameters_cvqnnlayers .missing famZero 1 (-1) 0 1 0 1 (some 0) stZero).1 =
      .error .negativeDimension ∧
    (parameters_cvqnnlayers .missing famZero 1 2 0 1 0 1 (some 0) stZero).1 =
      .error .attributeError :=
  ⟨(C2_no_validation famZero 0 0 0 1 0 1 0 stZero).1 rfl,
   (C2_no_validation famZero 0 (-1) 0 1 0 1 0 stZero).2.1 (by norm_num) .missing,
   (C2_no_validation famZero 0 2 0 1 0 1 0 stZero).2.2.1 (by norm_num),
   (C2_no_validation famZero 0 2 0 1 0 1 0 stZero).2.2.2.1 rfl (by norm_num),
   (C2_no_validation famZero (-1) 2 0 1 0 1 0 stZero).2.2.2.2.1 (by norm_num) .missing,
   (C2_no_validation famZero 1 (-1) 0 1 0 1 0 stZero).2.2.2.2.2.1 (by norm_num) (by norm_num) .missing,
   (C2_no_validation famZero 1 2 0 1 0 1 0 stZero).2.2.2.2.2.2 (by norm_num) (by norm_num)⟩

/-- C4 counterexample: a call that fails only after random draws have been
made.  As written, `parameters_cvqnnlayer(n_modes=2, seed=0)` aborts with
`AttributeError` after four scalar draws (`theta_1`, `phi_1` and
`varphi_1`); and even with the unit-sampler reading, `n_modes = -1` aborts
inside the sampler after the two interaction-pair draws. -/
theorem C4_cex :
    (parameters_cvqnnlayer .missing famZero 2 0 1 0 1 (some 0) stZero).1 =
      .error .attributeError ∧
    (parameters_cvqnnlayer .missing famZero 2 0 1 0 1 (some 0) stZero).2.pos = 4 ∧
    (parameters_cvqnnlayer .unitSampler famZero (-1) 0 1 0 1 (some 0) stZero).1 =
      .error .negativeDimension ∧
    (parameters_cvqnnlayer .unitSampler famZero (-1) 0 1 0 1 (some 0) stZero).2.pos = 2 :=
  ⟨rfl, rfl, rfl, rfl⟩

/-- C4 amended: failure is not atomic.  For every positive mode and layer
count, both operations (as written) fail, and only after at least one
random draw has been made. -/
theorem C4_failure_after_draws (fam : ℤ → Entropy) (l m : ℤ) (hl : 0 < l) (hm : 0 < m)
    (umin umax mean std : ℝ) (sd : ℤ) (s0 : RNGState) :
    (parameters_cvqnnlayers .missing fam l m umin umax mean std (some sd) s0).1 =
      .error .attributeError ∧
    0 < (parameters_cvqnnlayers .missing fam l m umin umax mean std (some sd) s0).2.pos ∧
    (parameters_cvqnnlayer .missing fam m umin umax mean std (some sd) s0).1 =
      .error .attributeError ∧
    0 < (parameters_cvqnnlayer .missing fam m umin umax mean std (some sd) s0).2.pos := by
  have hlm : 0 < l.toNat * m.toNat := Nat.mul_pos (by omega) (by omega)
  refine ⟨?_, ?_, ?_, ?_⟩
  · rw [parameters_cvqnnlayers_missing_eq fam l m (le_of_lt hl) (le_of_lt hm)
      umin umax mean std (some sd) s0 _ rfl]
  · rw [parameters_cvqnnlayers_missing_eq fam l m (le_of_lt hl) (le_of_lt hm)
      umin umax mean std (some sd) s0 _ rfl]
    simp only []
    omega
  · rw [parameters_cvqnnlayer_missing_eq fam m (le_of_lt hm)
      umin umax mean std (some sd) s0 _ rfl]
  · rw [parameters_cvqnnlayer_missing_eq fam m (le_of_lt hm)
      umin umax mean std (some sd) s0 _ rfl]
    simp only []
    omega

/-- Witness for C4 amended at mode count 2 and layer count 1. -/
theorem C4_failure_after_draws_witness :
    (parameters_cvqnnlayers .missing famZero 1 2 0 1 0 1 (some 0) stZero).1 =
      .error .attributeError ∧
    0 < (parameters_cvqnnlayers .missing famZero 1 2 0 1 0 1 (some 0) stZero).2.pos ∧
    (parameters_cvqnnlayer .missing famZero 2 0 1 0 1 (some 0) stZero).1 =
      .error .attributeError ∧
    0 < (parameters_cvqnnlayer .missing famZero 2 0 1 0 1 (some 0) stZero).2.pos :=
  C4_failure_after_draws famZero 1 2 (by norm_num) (by norm_num) 0 1 0 1 0 stZero

/-- C5: with the unit-sampler reading of `np.random.rnd`, in both
operations the three uniform-role arrays (indices 3, 8, 10) are exactly
the unit draws mapped through
`x * (uniform_max - uniform_min) + uniform_min`, and every other role is
drawn directly from the normal sampler (`mean + std * g`); the full
output of each operation is given explicitly in role order.  As written,
neither call ever reaches a unit sampler: both abort with the
`AttributeError` of the missing `np.random.rnd` attribute (first and
third conjuncts). -/
theorem C5_distribution_rules (fam : ℤ → Entropy) (l m : ℤ) (hl : 0 ≤ l) (hm : 0 ≤ m)
    (umin umax mean std : ℝ) (sd : ℤ) (s0 : RNGState) :
    (parameters_cvqnnlayer .missing fam m umin umax mean std (some sd) s0).1 =
      .error .attributeError ∧
    arraysOf (parameters_cvqnnlayer .unitSampler fam m umin umax mean std (some sd) s0) =
      [ .one (normSeg mean std (fam sd) 0 (n_if m).toNat),
        .one (normSeg mean std (fam sd) (n_if m).toNat (n_if m).toNat),
        .one (normSeg mean std (fam sd) ((n_if m).toNat + (n_if m).toNat) m.toNat),
        .one ((unitSeg (fam sd) ((n_if m).toNat + (n_if m).toNat + m.toNat) m.toNat).map
          fun x => x * (umax - umin) + umin),
        .one (normSeg mean std (fam sd) ((n_if m).toNat + (n_if m).toNat + m.toNat + m.toNat) m.toNat),
        .one (normSeg mean std (fam sd) ((n_if m).toNat + (n_if m).toNat + m.toNat + m.toNat + m.toNat) (n_if m).toNat),
        .one (normSeg mean std (fam sd) ((n_if m).toNat + (n_if m).toNat + m.toNat + m.toNat + m.toNat + (n_if m).toNat) (n_if m).toNat),
        .one (normSeg mean std (fam sd) ((n_if m).toNat + (n_if m).toNat + m.toNat + m.toNat + m.toNat + (n_if m).toNat + (n_if m).toNat) m.toNat),
        .one ((unitSeg (fam sd) ((n_if m).toNat + (n_if m).toNat + m.toNat + m.toNat + m.toNat + (n_if m).toNat + (n_if m).toNat + m.toNat) m.toNat).map
          fun x => x * (umax - umin) + umin),
        .one (normSeg mean std (fam sd) ((n_if m).toNat + (n_if m).toNat + m.toNat + m.toNat + m.toNat + (n_if m).toNat + (n_if m).toNat + m.toNat + m.toNat) m.toNat),
        .one ((unitSeg (fam sd) ((n_if m).toNat + (n_if m).toNat + m.toNat + m.toNat + m.toNat + (n_if m).toNat + (n_if m).toNat + m.toNat + m.toNat + m.toNat) m.toNat).map
          fun x => x * (umax - umin) + umin) ] ∧
    (parameters_cvqnnlayers .missing fam l m umin umax mean std (some sd) s0).1 =
      .error .attributeError ∧
    arraysOf (parameters_cvqnnlayers .unitSampler fam l m umin umax mean std (some sd) s0) =
      [ .two (normSeg2 mean std (fam sd) 0 l.toNat (n_if m).toNat),
        .two (normSeg2 mean std (fam sd) (l.toNat * (n_if m).toNat) l.toNat (n_if m).toNat),
        .two (normSeg2 mean std (fam sd) (l.toNat * (n_if m).toNat + l.toNat * (n_if m).toNat) l.toNat m.toNat),
        .two ((unitSeg2 (fam sd) (l.toNat * (n_if m).toNat + l.toNat * (n_if m).toNat + l.toNat * m.toNat) l.toNat m.toNat).map
          fun row => row.map fun x => x * (umax - umin) + umin),
        .two (normSeg2 mean std (fam sd) (l.toNat * (n_if m).toNat + l.toNat * (n_if m).toNat + l.toNat * m.toNat + l.toNat * m.toNat) l.toNat m.toNat),
        .two (normSeg2 mean std (fam sd) (l.toNat * (n_if m).toNat + l.toNat * (n_if m).toNat + l.toNat * m.toNat + l.toNat * m.toNat + l.toNat * m.toNat) l.toNat (n_if m).toNat),
        .two (normSeg2 mean std (fam sd) (l.toNat * (n_if m).toNat + l.toNat * (n_if m).toNat + l.toNat * m.toNat + l.toNat * m.toNat + l.toNat * m.toNat + l.toNat * (n_if m).toNat) l.toNat (n_if m).toNat),
        .two (normSeg2 mean std (fam sd) (l.toNat * (n_if m).toNat + l.toNat * (n_if m).toNat + l.toNat * m.toNat + l.toNat * m.toNat + l.toNat * m.toNat + l.toNat * (n_if m).toNat + l.toNat * (n_if m).toNat) l.toNat m.toNat),
        .two ((unitSeg2 (fam sd) (l.toNat * (n_if m).toNat + l.toNat * (n_if m).toNat + l.toNat * m.toNat + l.toNat * m.toNat + l.toNat * m.toNat + l.toNat * (n_if m).toNat + l.toNat * (n_if m).toNat + l.toNat * m.toNat) l.toNat m.toNat).map
          fun row => row.map fun x => x * (umax - umin) + umin),
        .two (normSeg2 mean std (fam sd) (l.toNat * (n_if m).toNat + l.toNat * (n_if m).toNat + l.toNat * m.toNat + l.toNat * m.toNat + l.toNat * m.toNat + l.toNat * (n_if m).toNat + l.toNat * (n_if m).toNat + l.toNat * m.toNat + l.toNat * m.toNat) l.toNat m.toNat),
        .two ((unitSeg2 (fam sd) (l.toNat * (n_if m).toNat + l.toNat * (n_if m).toNat + l.toNat * m.toNat + l.toNat * m.toNat + l.toNat * m.toNat + l.toNat * (n_if m).toNat + l.toNat * (n_if m).toNat + l.toNat * m.toNat + l.toNat * m.toNat + l.toNat * m.toNat) l.toNat m.toNat).map
          fun row => row.map fun x => x * (umax - umin) + umin) ] := by
  refine ⟨?_, ?_, ?_, ?_⟩
  · rw [parameters_cvqnnlayer_missing_eq fam m hm umin umax mean std (some sd) s0 _ rfl]
  · rw [parameters_cvqnnlayer_unit_eq fam m hm umin umax mean std (some sd) s0 _ rfl]
    simp [arraysOf, seedStep, np_seed]
  · rw [parameters_cvqnnlayers_missing_eq fam l m hl hm umin umax mean std (some sd) s0 _ rfl]
  · rw [parameters_cvqnnlayers_unit_eq fam l m hl hm umin umax mean std (some sd) s0 _ rfl]
    simp [arraysOf, seedStep, np_seed]

/-- Witness for C5 at mode count 1 and layer count 3. -/
theorem C5_distribution_rules_witness :
    (parameters_cvqnnlayer .missing famZero 1 0 1 0 1 (some 0) stZero).1 =
      .error .attributeError ∧
    arraysOf (parameters_cvqnnlayer .unitSampler famZero 1 0 1 0 1 (some 0) stZero) =
      [ .one (normSeg 0 1 (famZero 0) 0 (n_if 1).toNat),
        .one (normSeg 0 1 (famZero 0) (n_if 1).toNat (n_if 1).toNat),
        .one (normSeg 0 1 (famZero 0) ((n_if 1).toNat + (n_if 1).toNat) (1 : ℤ).toNat),
        .one ((unitSeg (famZero 0) ((n_if 1).toNat + (n_if 1).toNat + (1 : ℤ).toNat) (1 : ℤ).toNat).map
          fun x => x * (1 - 0) + 0),
        .one (normSeg 0 1 (famZero 0) ((n_if 1).toNat + (n_if 1).toNat + (1 : ℤ).toNat + (1 : ℤ).toNat) (1 : ℤ).toNat),
        .one (normSeg 0 1 (famZero 0) ((n_if 1).toNat + (n_if 1).toNat + (1 : ℤ).toNat + (1 : ℤ).toNat + (1 : ℤ).toNat) (n_if 1).toNat),
        .one (normSeg 0 1 (famZero 0) ((n_if 1).toNat + (n_if 1).toNat + (1 : ℤ).toNat + (1 : ℤ).toNat + (1 : ℤ).toNat + (n_if 1).toNat) (n_if 1).toNat),
        .one (normSeg 0 1 (famZero 0) ((n_if 1).toNat + (n_if 1).toNat + (1 : ℤ).toNat + (1 : ℤ).toNat + (1 : ℤ).toNat + (n_if 1).toNat + (n_if 1).toNat) (1 : ℤ).toNat),
        .one ((unitSeg (famZero 0) ((n_if 1).toNat + (n_if 1).toNat + (1 : ℤ).toNat + (1 : ℤ).toNat + (1 : ℤ).toNat + (n_if 1).toNat + (n_if 1).toNat + (1 : ℤ).toNat) (1 : ℤ).toNat).map
          fun x => x * (1 - 0) + 0),
        .one (normSeg 0 1 (famZero 0) ((n_if 1).toNat + (n_if 1).toNat + (1 : ℤ).toNat + (1 : ℤ).toNat + (1 : ℤ).toNat + (n_if 1).toNat + (n_if 1).toNat + (1 : ℤ).toNat + (1 : ℤ).toNat) (1 : ℤ).toNat),
        .one ((unitSeg (famZero 0) ((n_if 1).toNat + (n_if 1).toNat + (1 : ℤ).toNat + (1 : ℤ).toNat + (1 : ℤ).toNat + (n_if 1).toNat + (n_if 1).toNat + (1 : ℤ).toNat + (1 : ℤ).toNat + (1 : ℤ).toNat) (1 : ℤ).toNat).map
          fun x => x * (1 - 0) + 0) ] ∧
    (parameters_cvqnnlayers .missing famZero 3 1 0 1 0 1 (some 0) stZero).1 =
      .error .attributeError ∧
    arraysOf (parameters_cvqnnlayers .unitSampler famZero 3 1 0 1 0 1 (some 0) stZero) =
      [ .two (normSeg2 0 1 (famZero 0) 0 (3 : ℤ).toNat (n_if 1).toNat),
        .two (normSeg2 0 1 (famZero 0) ((3 : ℤ).toNat * (n_if 1).toNat) (3 : ℤ).toNat (n_if 1).toNat),
        .two (normSeg2 0 1 (famZero 0) ((3 : ℤ).toNat * (n_if 1).toNat + (3 : ℤ).toNat * (n_if 1).toNat) (3 : ℤ).toNat (1 : ℤ).toNat),
        .two ((unitSeg2 (famZero 0) ((3 : ℤ).toNat * (n_if 1).toNat + (3 : ℤ).toNat * (n_if 1).toNat + (3 : ℤ).toNat * (1 : ℤ).toNat) (3 : ℤ).toNat (1 : ℤ).toNat).map
          fun row => row.map fun x => x * (1 - 0) + 0),
        .two (normSeg2 0 1 (famZero 0) ((3 : ℤ).toNat * (n_if 1).toNat + (3 : ℤ).toNat * (n_if 1).toNat + (3 : ℤ).toNat * (1 : ℤ).toNat + (3 : ℤ).toNat * (1 : ℤ).toNat) (3 : ℤ).toNat (1 : ℤ).toNat),
        .two (normSeg2 0 1 (famZero 0) ((3 : ℤ).toNat * (n_if 1).toNat + (3 : ℤ).toNat * (n_if 1).toNat + (3 : ℤ).toNat * (1 : ℤ).toNat + (3 : ℤ).toNat * (1 : ℤ).toNat + (3 : ℤ).toNat * (1 : ℤ).toNat) (3 : ℤ).toNat (n_if 1).toNat),
        .two (normSeg2 0 1 (famZero 0) ((3 : ℤ).toNat * (n_if 1).toNat + (3 : ℤ).toNat * (n_if 1).toNat + (3 : ℤ).toNat * (1 : ℤ).toNat + (3 : ℤ).toNat * (1 : ℤ).toNat + (3 : ℤ).toNat * (1 : ℤ).toNat + (3 : ℤ).toNat * (n_if 1).toNat) (3 : ℤ).toNat (n_if 1).toNat),
        .two (normSeg2 0 1 (famZero 0) ((3 : ℤ).toNat * (n_if 1).toNat + (3 : ℤ).toNat * (n_if 1).toNat + (3 : ℤ).toNat * (1 : ℤ).toNat + (3 : ℤ).toNat * (1 : ℤ).toNat + (3 : ℤ).toNat * (1 : ℤ).toNat + (3 : ℤ).toNat * (n_if 1).toNat + (3 : ℤ).toNat * (n_if 1).toNat) (3 : ℤ).toNat (1 : ℤ).toNat),
        .two ((unitSeg2 (famZero 0) ((3 : ℤ).toNat * (n_if 1).toNat + (3 : ℤ).toNat * (n_if 1).toNat + (3 : ℤ).toNat * (1 : ℤ).toNat + (3 : ℤ).toNat * (1 : ℤ).toNat + (3 : ℤ).toNat * (1 : ℤ).toNat + (3 : ℤ).toNat * (n_if 1).toNat + (3 : ℤ).toNat * (n_if 1).toNat + (3 : ℤ).toNat * (1 : ℤ).toNat) (3 : ℤ).toNat (1 : ℤ).toNat).map
          fun row => row.map fun x => x * (1 - 0) + 0),
        .two (normSeg2 0 1 (famZero 0) ((3 : ℤ).toNat * (n_if 1).toNat + (3 : ℤ).toNat * (n_if 1).toNat + (3 : ℤ).toNat * (1 : ℤ).toNat + (3 : ℤ).toNat * (1 : ℤ).toNat + (3 : ℤ).toNat * (1 : ℤ).toNat + (3 : ℤ).toNat * (n_if 1).toNat + (3 : ℤ).toNat * (n_if 1).toNat + (3 : ℤ).toNat * (1 : ℤ).toNat + (3 : ℤ).toNat * (1 : ℤ).toNat) (3 : ℤ).toNat (1 : ℤ).toNat),
        .two ((unitSeg2 (famZero 0) ((3 : ℤ).toNat * (n_if 1).toNat + (3 : ℤ).toNat * (n_if 1).toNat + (3 : ℤ).toNat * (1 : ℤ).toNat + (3 : ℤ).toNat * (1 : ℤ).toNat + (3 : ℤ).toNat * (1 : ℤ).toNat + (3 : ℤ).toNat * (n_if 1).toNat + (3 : ℤ).toNat * (n_if 1).toNat + (3 : ℤ).toNat * (1 : ℤ).toNat + (3 : ℤ).toNat * (1 : ℤ).toNat + (3 : ℤ).toNat * (1 : ℤ).toNat) (3 : ℤ).toNat (1 : ℤ).toNat).map
          fun row => row.map fun x => x * (1 - 0) + 0) ] :=
  C5_distribution_rules famZero 3 1 (by norm_num) (by norm_num) 0 1 0 1 0 stZero

/-- C6 counterexample: with a degenerate interval `uniform_min =
uniform_max = 0` (so `uniform_min <= uniform_max` holds) and a unit draw
of 0 (inside `[0,1)`), the single uniform-role element equals 0, which
does not lie in the empty half-open interval `[0, 0)` — the claim as
stated fails at this input. -/
theorem C6_cex :
    ¬ ListAll (fun x => (0 : ℝ) ≤ x ∧ x < 0)
      ((role (arraysOf (parameters_cvqnnlayer .unitSampler famZero 1 0 0 0 1 (some 0) stZero)) 3).elems) := by
  intro h
  have h2 : ListAll (fun x => (0 : ℝ) ≤ x ∧ x < 0) [(0 : ℝ) * (0 - 0) + 0] := h
  have h3 := h2.1.2
  norm_num at h3

/-- C6 amended: whenever `uniform_min < uniform_max` (strictly) and the
unit sampler yields values in `[0, 1)`, every element of the
uniform-sampled arrays at indices 3, 8 and 10 of either operation lies in
`[uniform_min, uniform_max)`.  (When `uniform_min = uniform_max` every
element equals `uniform_min`, outside the then-empty half-open
interval — see the counterexample.) -/
theorem C6_uniform_range (fam : ℤ → Entropy) (l m : ℤ) (hl : 0 ≤ l) (hm : 0 ≤ m)
    (umin umax mean std : ℝ) (sd : ℤ) (s0 : RNGState) (hlt : umin < umax)
    (hu : ∀ i, 0 ≤ (fam sd).u i ∧ (fam sd).u i < 1) :
    ListAll (fun x => umin ≤ x ∧ x < umax)
      ((role (arraysOf (parameters_cvqnnlayer .unitSampler fam m umin umax mean std (some sd) s0)) 3).elems) ∧
    ListAll (fun x => umin ≤ x ∧ x < umax)
      ((role (arraysOf (parameters_cvqnnlayer .unitSampler fam m umin umax mean std (some sd) s0)) 8).elems) ∧
    ListAll (fun x => umin ≤ x ∧ x < umax)
      ((role (arraysOf (parameters_cvqnnlayer .unitSampler fam m umin umax mean std (some sd) s0)) 10).elems) ∧
    ListAll (fun x => umin ≤ x ∧ x < umax)
      ((role (arraysOf (parameters_cvqnnlayers .unitSampler fam l m umin umax mean std (some sd) s0)) 3).elems) ∧
    ListAll (fun x => umin ≤ x ∧ x < umax)
      ((role (arraysOf (parameters_cvqnnlayers .unitSampler fam l m umin umax mean std (some sd) s0)) 8).elems) ∧
    ListAll (fun x => umin ≤ x ∧ x < umax)
      ((role (arraysOf (parameters_cvqnnlayers .unitSampler fam l m umin umax mean std (some sd) s0)) 10).elems) := by
  rw [parameters_cvqnnlayer_unit_eq fam m hm umin umax mean std (some sd) s0 _ rfl,
    parameters_cvqnnlayers_unit_eq fam l m hl hm umin umax mean std (some sd) s0 _ rfl]
  simp only [arraysOf, role, seedStep, np_seed, List.getD_cons_zero, List.getD_cons_succ,
    NPArray.elems]
  exact ⟨ListAll_unitSeg_affine _ _ _ umin umax hlt hu,
    ListAll_unitSeg_affine _ _ _ umin umax hlt hu,
    ListAll_unitSeg_affine _ _ _ umin umax hlt hu,
    ListAll_unitSeg2_affine _ _ _ _ umin umax hlt hu,
    ListAll_unitSeg2_affine _ _ _ _ umin umax hlt hu,
    ListAll_unitSeg2_affine _ _ _ _ umin umax hlt hu⟩

/-- Witness for C6 amended at mode count 1 and layer count 2 over the
interval `[0, 1)`. -/
theorem C6_uniform_range_witness :
    ListAll (fun x => (0 : ℝ) ≤ x ∧ x < 1)
      ((role (arraysOf (parameters_cvqnnlayer .unitSampler famZero 1 0 1 0 1 (some 0) stZero)) 3).elems) ∧
    ListAll (fun x => (0 : ℝ) ≤ x ∧ x < 1)
      ((role (arraysOf (parameters_cvqnnlayer .unitSampler famZero 1 0 1 0 1 (some 0) stZero)) 8).elems) ∧
    ListAll (fun x => (0 : ℝ) ≤ x ∧ x < 1)
      ((role (arraysOf (parameters_cvqnnlayer .unitSampler famZero 1 0 1 0 1 (some 0) stZero)) 10).elems) ∧
    ListAll (fun x => (0 : ℝ) ≤ x ∧ x < 1)
      ((role (arraysOf (parameters_cvqnnlayers .unitSampler famZero 2 1 0 1 0 1 (some 0) stZero)) 3).elems) ∧
    ListAll (fun x => (0 : ℝ) ≤ x ∧ x < 1)
      ((role (arraysOf (parameters_cvqnnlayers .unitSampler famZero 2 1 0 1 0 1 (some 0) stZero)) 8).elems) ∧
    ListAll (fun x => (0 : ℝ) ≤ x ∧ x < 1)
      ((role (arraysOf (parameters_cvqnnlayers .unitSampler famZero 2 1 0 1 0 1 (some 0) stZero)) 10).elems) :=
  C6_uniform_range famZero 2 1 (by norm_num) (by norm_num) 0 1 0 1 0 stZero (by norm_num)
    (fun i => by constructor <;> norm_num [famZero])

/-- C8: for every mode count, seed and remaining arguments, the stacked
operation at `n_layers = 1` and the single-layer operation issue the same
draws in the same order, so the stacked result is the single-layer result
with each rank-1 array of shape `(D,)` wrapped as the rank-2 array
`[(1, D)]` — element-wise equal values at every role index.  This holds
for both readings of the `np.random.rnd` attribute (as written, both
variants abort identically). -/
theorem C8_stack_one_layer_eq_single (impl : RndImpl) (fam : ℤ → Entropy) (m : ℤ)
    (hm : 0 ≤ m) (umin umax mean std : ℝ) (sd : ℤ) (s0 : RNGState) :
    (parameters_cvqnnlayers impl fam 1 m umin umax mean std (some sd) s0).1 =
      Except.map (List.map wrapRow)
        ((parameters_cvqnnlayer impl fam m umin umax mean std (some sd) s0).1) := by
  cases impl
  · rw [parameters_cvqnnlayers_missing_eq fam 1 m (by norm_num) hm
        umin umax mean std (some sd) s0 _ rfl,
      parameters_cvqnnlayer_missing_eq fam m hm umin umax mean std (some sd) s0 _ rfl]
    rfl
  · rw [parameters_cvqnnlayers_unit_eq fam 1 m (by norm_num) hm
        umin umax mean std (some sd) s0 _ rfl,
      parameters_cvqnnlayer_unit_eq fam m hm umin umax mean std (some sd) s0 _ rfl]
    simp [Except.map, wrapRow, normSeg2, unitSeg2, normSeg, unitSeg, range_one,
      List.map_map, Function.comp]

/-- Witness for C8 at mode count 2 with the unit-sampler reading. -/
theorem C8_stack_one_layer_eq_single_witness :
    (parameters_cvqnnlayers .unitSampler famZero 1 2 0 1 0 1 (some 0) stZero).1 =
      Except.map (List.map wrapRow)
        ((parameters_cvqnnlayer .unitSampler famZero 2 0 1 0 1 (some 0) stZero).1) :=
  C8_stack_one_layer_eq_single .unitSampler famZero 2 (by norm_num) 0 1 0 1 0 stZero

end PennyLane
